import Mathlib

/-!
# Meiteilon translator relay: `server.js`

A shallow embedding of the two request handlers of `server.js`
(`POST /api/translate` and `POST /api/tts`) and the properties of their
request validation, voice selection and response extraction.

Modelling conventions.

* JavaScript values that the handlers touch come from `JSON.parse` (the request
  body and the upstream body), plus `undefined` produced by reading an absent
  property. They are the type `JSVal`.
* Numbers are carried as integers. The handlers only test a number for being
  zero (truthiness) or for being greater than zero (`length > 0`), and print it
  inside the prompt. Fractions and the rounding of IEEE doubles are outside the
  model.
* Strings are Lean strings (sequences of Unicode scalar values).
* Objects are association lists of their own properties, read with
  `List.lookup`; arrays are lists.
* The comparison `x.length > 0` can meet a `length` that is not a number only
  when `x` is an object with an own `length` property. Reading such a value as a
  number follows the StringToNumber grammar of ECMAScript, which is kept as the
  parameter `strPos` of the translation handler; every theorem holds for every
  `strPos`.
* A thrown JavaScript exception is the error side of `Except JSError`.
* `console.error` writes to the process log only and is not part of the model.
* The outbound `fetch` is an oracle from the request to what the upstream does;
  every call issued is recorded in `Outcome.calls`.
-/

namespace Server

/-! ## JavaScript values -/

/-- A JavaScript value as the handlers can meet it. -/
inductive JSVal where
  | undefined
  | null
  | bool (b : Bool)
  | num (n : Int)
  | str (s : String)
  | arr (xs : List JSVal)
  | obj (fields : List (String × JSVal))

/-- Exceptions that can be thrown inside a handler body. -/
inductive JSError where
  /-- A `TypeError`: property read on `undefined`/`null`, call of a non-function,
  object that cannot be converted to a primitive. -/
  | typeError
  /-- The rejection of `response.json()` on a body that is not JSON. -/
  | syntaxError
  /-- The rejection of `fetch` (or of the dynamic `import`). -/
  | networkError
  deriving DecidableEq

/-- JavaScript truthiness (`ToBoolean`): what `!v` and `v && ...` test. -/
def truthy : JSVal → Bool
  | .undefined => false
  | .null => false
  | .bool b => b
  | .num n => n != 0
  | .str s => s != ""
  | .arr _ => true
  | .obj _ => true

/-- Whether a value is `undefined` or `null`. -/
def isNullish : JSVal → Bool
  | .undefined => true
  | .null => true
  | _ => false

/-- Number of UTF-16 code units of a string: the JavaScript `length` of it. -/
def utf16Length (s : String) : Nat :=
  (s.data.map fun c => if c.val ≥ 0x10000 then 2 else 1).sum

/-- The named property `v.key` of a value that is not `undefined`/`null`.
Objects answer with their own property, arrays and strings with `length`;
every other read gives `undefined`. It is used with the property names that
occur in `server.js` (`inputText`, `targetLanguage`, `text`, `candidates`,
`content`, `parts`, `inlineData`, `data`, `mimeType`, `length`), none of which
is inherited from a prototype except `length`. -/
def member (v : JSVal) (key : String) : JSVal :=
  match v with
  | .obj fields => (fields.lookup key).getD .undefined
  | .arr xs => if key = "length" then .num xs.length else .undefined
  | .str s => if key = "length" then .num (utf16Length s) else .undefined
  | _ => .undefined

/-- The indexed property `v[i]` of a value that is not `undefined`/`null`.
An object answers with its own property named by the decimal digits of `i`.
A string answers with a one-unit string; the model returns the character at
that position (the handlers only read named properties of it, which are all
`undefined` for any string). -/
def element (v : JSVal) (i : Nat) : JSVal :=
  match v with
  | .obj fields => (fields.lookup (toString i)).getD .undefined
  | .arr xs => xs.getD i .undefined
  | .str s =>
    match s.data.get? i with
    | some c => .str (String.singleton c)
    | none => .undefined
  | _ => .undefined

/-- Property read `v.key`: throws a `TypeError` on `undefined`/`null`. -/
def getProp (v : JSVal) (key : String) : Except JSError JSVal :=
  if isNullish v then .error .typeError else .ok (member v key)

/-- Index read `v[i]`: throws a `TypeError` on `undefined`/`null`. -/
def getIndex (v : JSVal) (i : Nat) : Except JSError JSVal :=
  if isNullish v then .error .typeError else .ok (element v i)

/-- Optional property read `v?.key`. -/
def optProp (v : JSVal) (key : String) : JSVal :=
  if isNullish v then .undefined else member v key

/-- Optional index read `v?.[i]`. -/
def optIndex (v : JSVal) (i : Nat) : JSVal :=
  if isNullish v then .undefined else element v i

/-- Whether an object has an own property of that name. -/
def hasKey (fields : List (String × JSVal)) (key : String) : Bool :=
  (fields.lookup key).isSome

mutual
/-- The conversion `ToString` that a template literal applies to an interpolated value.
An array is joined with commas (`undefined` and `null` elements print as
nothing). A plain object prints as `[object Object]`; if it has an own
`toString` property (never a function, the value comes from JSON) the
conversion throws a `TypeError`. -/
def jsToString : JSVal → Except JSError String
  | .undefined => .ok "undefined"
  | .null => .ok "null"
  | .bool true => .ok "true"
  | .bool false => .ok "false"
  | .num n => .ok (toString n)
  | .str s => .ok s
  | .arr xs =>
    match elemStrings xs with
    | .ok parts => .ok (",".intercalate parts)
    | .error e => .error e
  | .obj fields =>
    if hasKey fields "toString" then .error .typeError else .ok "[object Object]"
termination_by structural v => v
/-- The strings of the elements of an array, as `Array.prototype.join` takes them. -/
def elemStrings : List JSVal → Except JSError (List String)
  | [] => .ok []
  | x :: rest =>
    match (match x with
      | .undefined => Except.ok ""
      | .null => Except.ok ""
      | _ => jsToString x) with
    | .error e => .error e
    | .ok a =>
      match elemStrings rest with
      | .ok b => .ok (a :: b)
      | .error e => .error e
termination_by structural xs => xs
end

/-- The comparison `v > 0`. On `undefined` the operand is `NaN`, on `null` it is
`0`, on a boolean `0` or `1`. A string, array or object operand is first brought
to a string (`jsToString`, which may throw) and then read as a number by the
StringToNumber grammar of ECMAScript, which is a parameter here: `strPos s`
tells whether the string `s` reads as a number greater than zero. -/
def gtZero (strPos : String → Bool) : JSVal → Except JSError Bool
  | .undefined => .ok false
  | .null => .ok false
  | .bool b => .ok b
  | .num n => .ok (decide (0 < n))
  | .str s => .ok (strPos s)
  | v =>
    match jsToString v with
    | .ok s => .ok (strPos s)
    | .error e => .error e

/-- The method call `s.startsWith(pre)` on strings. -/
def startsWith (s pre : String) : Bool :=
  pre.data.isPrefixOf s.data

/-- Strict equality `v === lit` against a string literal. -/
def strictEqStr (v : JSVal) (lit : String) : Bool :=
  match v with
  | .str s => s == lit
  | _ => false

/-! ## HTTP data -/

/-- What a handler sends back: `res.status(status).json(body)`. -/
structure Response where
  status : Nat
  body : JSVal

/-- An outbound call `fetch(url, ...)` with method POST and the body
`JSON.stringify(payload)`. -/
structure OutboundRequest where
  url : String
  payload : JSVal

/-- A response of the upstream service. `text` is the raw body as read by
`response.text()`; `json` is the result of `response.json()`, `none` when the
body is not valid JSON. -/
structure UpstreamResponse where
  status : Nat
  statusText : String
  text : String
  json : Option JSVal

/-- The result of awaiting `fetch`. -/
inductive FetchResult where
  | failed
  | responded (r : UpstreamResponse)

/-- The observable result of one handler invocation. -/
structure Outcome where
  response : Response
  calls : List OutboundRequest

/-- The getter `response.ok` of node-fetch: status in the range 200 to 299. -/
def responseOk (r : UpstreamResponse) : Bool :=
  decide (200 ≤ r.status) && decide (r.status < 300)

/-- The object serialised by `res.json`: `JSON.stringify` leaves out the
properties whose value is `undefined`. -/
def jsonBody (fields : List (String × JSVal)) : JSVal :=
  .obj (fields.filter fun kv => match kv.2 with
    | .undefined => false
    | _ => true)

/-- The body with the single property `error`. -/
def errorBody (msg : String) : JSVal :=
  jsonBody [("error", .str msg)]

/-- The test `!apiKey` negated: the environment variable is set and not empty. -/
def keyConfigured : Option String → Bool
  | none => false
  | some k => k != ""

/-- The string interpolated for `apiKey` in the URL once `!apiKey` is false. -/
def keyString (apiKey : Option String) : String :=
  apiKey.getD ""

/-! ## `POST /api/translate` -/

/-- The template literal `prompt` (lines 28-29): `targetLanguage` is converted
first, then `inputText`. -/
def translatePrompt (inputText targetLanguage : JSVal) : Except JSError String :=
  match jsToString targetLanguage with
  | .error e => .error e
  | .ok lang =>
    match jsToString inputText with
    | .error e => .error e
    | .ok txt =>
      .ok ("Translate the following Manipuri text to " ++ lang ++
        ". Only output the translated text without any prefixes, conversational phrases, or extra information. If the input is Romanized Manipuri, process it as such. If it's Meitei Mayek, process it as Meitei Mayek.\n        \nManipuri Text: " ++ txt)

/-- The object `payload` of the translation call (lines 31-32). -/
def translatePayload (prompt : String) : JSVal :=
  .obj [("contents", .arr [.obj [("role", .str "user"),
    ("parts", .arr [.obj [("text", .str prompt)]])]])]

/-- The URL of the text-generation endpoint (line 39). -/
def translateUrl (apiKey : Option String) : String :=
  "https://generativelanguage.googleapis.com/v1beta/models/gemini-2.5-flash-preview-05-20:generateContent?key=" ++ keyString apiKey

/-- The condition of the `if` at lines 56-58, evaluated left to right with the
short circuit of `&&`. -/
def translateShapeOk (strPos : String → Bool) (result : JSVal) : Except JSError Bool :=
  match getProp result "candidates" with
  | .error e => .error e
  | .ok candidates =>
    if truthy candidates then
      match getProp candidates "length" with
      | .error e => .error e
      | .ok len =>
        match gtZero strPos len with
        | .error e => .error e
        | .ok false => .ok false
        | .ok true =>
          match getIndex candidates 0 with
          | .error e => .error e
          | .ok first =>
            match getProp first "content" with
            | .error e => .error e
            | .ok content =>
              if truthy content then
                match getProp content "parts" with
                | .error e => .error e
                | .ok parts =>
                  if truthy parts then
                    match getProp parts "length" with
                    | .error e => .error e
                    | .ok plen => gtZero strPos plen
                  else .ok false
              else .ok false
    else .ok false

/-- The expression `result.candidates[0].content.parts[0].text` (line 59). -/
def translatedTextOf (result : JSVal) : Except JSError JSVal :=
  match getProp result "candidates" with
  | .error e => .error e
  | .ok candidates =>
    match getIndex candidates 0 with
    | .error e => .error e
    | .ok first =>
      match getProp first "content" with
      | .error e => .error e
      | .ok content =>
        match getProp content "parts" with
        | .error e => .error e
        | .ok parts =>
          match getIndex parts 0 with
          | .error e => .error e
          | .ok part => getProp part "text"

/-- Lines 48-64: what the translation handler does with the upstream response. -/
def translateAfter (strPos : String → Bool) (r : UpstreamResponse) : Except JSError Response :=
  if !responseOk r then
    .ok ⟨500, errorBody ("Translation service error: " ++ toString r.status)⟩
  else
    match r.json with
    | none => .error .syntaxError
    | some result =>
      match translateShapeOk strPos result with
      | .error e => .error e
      | .ok true =>
        match translatedTextOf result with
        | .error e => .error e
        | .ok translatedText => .ok ⟨200, jsonBody [("translatedText", translatedText)]⟩
      | .ok false => .ok ⟨500, errorBody "Unexpected API response structure"⟩

/-- The body of the `try` block of the translation handler (lines 22-64):
the outbound calls issued and either the response sent or the exception thrown. -/
def translateTry (strPos : String → Bool) (fetch : OutboundRequest → FetchResult)
    (apiKey : Option String) (body : JSVal) : List OutboundRequest × Except JSError Response :=
  match getProp body "inputText" with
  | .error e => ([], .error e)
  | .ok inputText =>
    match getProp body "targetLanguage" with
    | .error e => ([], .error e)
    | .ok targetLanguage =>
      if !truthy inputText || !truthy targetLanguage then
        ([], .ok ⟨400, errorBody "Missing required fields: inputText and targetLanguage"⟩)
      else
        match translatePrompt inputText targetLanguage with
        | .error e => ([], .error e)
        | .ok prompt =>
          if !keyConfigured apiKey then
            ([], .ok ⟨500, errorBody "API key not configured"⟩)
          else
            let request : OutboundRequest := ⟨translateUrl apiKey, translatePayload prompt⟩
            match fetch request with
            | .failed => ([request], .error .networkError)
            | .responded r => ([request], translateAfter strPos r)

/-- The handler of `POST /api/translate` (lines 20-69): the `try` block, with
the `catch` turning every exception into status 500 `Translation failed`. -/
def translateHandler (strPos : String → Bool) (fetch : OutboundRequest → FetchResult)
    (apiKey : Option String) (body : JSVal) : Outcome :=
  match translateTry strPos fetch apiKey body with
  | (calls, .ok response) => ⟨response, calls⟩
  | (calls, .error _) => ⟨⟨500, errorBody "Translation failed"⟩, calls⟩

/-! ## `POST /api/tts` -/

/-- The voice mapping of lines 81-98. -/
def selectVoice (targetLanguage : JSVal) : String :=
  if strictEqStr targetLanguage "English" then "Zephyr"
  else if strictEqStr targetLanguage "Hindi" then "Rasalgethi"
  else if strictEqStr targetLanguage "Bengali" then "Sadachbia"
  else if strictEqStr targetLanguage "Spanish" then "Autonoe"
  else if strictEqStr targetLanguage "French" then "Charon"
  else if strictEqStr targetLanguage "German" then "Fenrir"
  else if strictEqStr targetLanguage "Japanese" then "Leda"
  else if strictEqStr targetLanguage "Korean" then "Orus"
  else if strictEqStr targetLanguage "Italian" then "Aoede"
  else if strictEqStr targetLanguage "Portuguese" then "Callirrhoe"
  else if strictEqStr targetLanguage "Russian" then "Enceladus"
  else if strictEqStr targetLanguage "Dutch" then "Iapetus"
  else if strictEqStr targetLanguage "Polish" then "Umbriel"
  else if strictEqStr targetLanguage "Thai" then "Algenib"
  else if strictEqStr targetLanguage "Turkish" then "Rasalgethi"
  else if strictEqStr targetLanguage "Vietnamese" then "Laomedeia"
  else if strictEqStr targetLanguage "Assamese" then "Achernar"
  else "Kore"

/-- The object `payload` of the speech call (lines 100-113). -/
def ttsPayload (text : JSVal) (voiceName : String) : JSVal :=
  .obj [("contents", .arr [.obj [("parts", .arr [.obj [("text", text)]])]]),
    ("generationConfig", .obj [("responseModalities", .arr [.str "AUDIO"]),
      ("speechConfig", .obj [("voiceConfig",
        .obj [("prebuiltVoiceConfig", .obj [("voiceName", .str voiceName)])])])]),
    ("model", .str "gemini-2.5-flash-preview-tts")]

/-- The URL of the audio-generation endpoint (line 120). -/
def ttsUrl (apiKey : Option String) : String :=
  "https://generativelanguage.googleapis.com/v1beta/models/gemini-2.5-flash-preview-tts:generateContent?key=" ++ keyString apiKey

/-- The optional chain `result?.candidates?.[0]?.content?.parts?.[0]` (line 137). -/
def firstPart (result : JSVal) : JSVal :=
  optIndex (optProp (optProp (optIndex (optProp result "candidates") 0) "content") "parts") 0

/-- The value `part?.inlineData?.data` (line 138). -/
def audioDataOf (result : JSVal) : JSVal :=
  optProp (optProp (firstPart result) "inlineData") "data"

/-- The value `part?.inlineData?.mimeType` (line 139). -/
def mimeTypeOf (result : JSVal) : JSVal :=
  optProp (optProp (firstPart result) "inlineData") "mimeType"

/-- Lines 129-146: what the speech handler does with the upstream response. -/
def ttsAfter (r : UpstreamResponse) : Except JSError Response :=
  if !responseOk r then
    .ok ⟨500, errorBody ("TTS service error: " ++ toString r.status)⟩
  else
    match r.json with
    | none => .error .syntaxError
    | some result =>
      let audioData := audioDataOf result
      let mimeType := mimeTypeOf result
      if truthy audioData && truthy mimeType then
        match mimeType with
        | .str m =>
          if startsWith m "audio/" then
            .ok ⟨200, jsonBody [("audioData", audioData), ("mimeType", mimeType)]⟩
          else .ok ⟨500, errorBody "Unexpected TTS API response structure"⟩
        | _ => .error .typeError
      else .ok ⟨500, errorBody "Unexpected TTS API response structure"⟩

/-- The body of the `try` block of the speech handler (lines 74-146). -/
def ttsTry (fetch : OutboundRequest → FetchResult)
    (apiKey : Option String) (body : JSVal) : List OutboundRequest × Except JSError Response :=
  match getProp body "text" with
  | .error e => ([], .error e)
  | .ok text =>
    match getProp body "targetLanguage" with
    | .error e => ([], .error e)
    | .ok targetLanguage =>
      if !truthy text || !truthy targetLanguage then
        ([], .ok ⟨400, errorBody "Missing required fields: text and targetLanguage"⟩)
      else
        let voiceName := selectVoice targetLanguage
        if !keyConfigured apiKey then
          ([], .ok ⟨500, errorBody "API key not configured"⟩)
        else
          let request : OutboundRequest := ⟨ttsUrl apiKey, ttsPayload text voiceName⟩
          match fetch request with
          | .failed => ([request], .error .networkError)
          | .responded r => ([request], ttsAfter r)

/-- The handler of `POST /api/tts` (lines 72-151): the `try` block, with the
`catch` turning every exception into status 500 `TTS failed`. -/
def ttsHandler (fetch : OutboundRequest → FetchResult)
    (apiKey : Option String) (body : JSVal) : Outcome :=
  match ttsTry fetch apiKey body with
  | (calls, .ok response) => ⟨response, calls⟩
  | (calls, .error _) => ⟨⟨500, errorBody "TTS failed"⟩, calls⟩

/-! ## Reading a JSON document along a path -/

/-- One step of a path into a JSON document: an object key or an array index. -/
inductive Step where
  | key (k : String)
  | idx (i : Nat)

/-- The child of a JSON value under one step: a key selects in an object, an
index in an array, nothing else has children. -/
def child : JSVal → Step → Option JSVal
  | .obj fields, .key k => fields.lookup k
  | .arr xs, .idx i => xs.get? i
  | _, _ => none

/-- The value found in a JSON document at a path, if every step exists. -/
def jsonAt (v : JSVal) : List Step → Option JSVal
  | [] => some v
  | s :: rest =>
    match child v s with
    | some w => jsonAt w rest
    | none => none

/-- The path `candidates[0].content.parts[0]` of the upstream envelope. -/
def partPath : List Step :=
  [.key "candidates", .idx 0, .key "content", .key "parts", .idx 0]

/-! ## Request validity in the words of the specification -/

/-- A value is a non-empty string. -/
def nonEmptyString : JSVal → Bool
  | .str s => s != ""
  | _ => false

/-- A translate request is valid: `inputText` and `targetLanguage` are non-empty
strings. -/
def validTranslate (body : JSVal) : Bool :=
  nonEmptyString (member body "inputText") && nonEmptyString (member body "targetLanguage")

/-- A tts request is valid: `text` and `targetLanguage` are non-empty strings. -/
def validTts (body : JSVal) : Bool :=
  nonEmptyString (member body "text") && nonEmptyString (member body "targetLanguage")

/-- A link before the first part is missing from an upstream body: `candidates`
is missing, `candidates` is empty, `candidates[0]` has no `content`, `content`
has no `parts`, or `parts` is empty. -/
def missingLink (result : JSVal) : Bool :=
  match member result "candidates" with
  | .undefined => true
  | .arr [] => true
  | .arr (first :: _) =>
    match member first "content" with
    | .undefined => true
    | content =>
      match member content "parts" with
      | .undefined => true
      | .arr [] => true
      | _ => false
  | _ => false

/-- The seventeen language names of the voice table. -/
def voiceLanguages : List String :=
  ["English", "Hindi", "Bengali", "Spanish", "French", "German", "Japanese", "Korean",
   "Italian", "Portuguese", "Russian", "Dutch", "Polish", "Thai", "Turkish", "Vietnamese",
   "Assamese"]

/-! ## Sample data -/

/-- A fetch oracle answering every call with the same upstream response. -/
def always (r : UpstreamResponse) : OutboundRequest → FetchResult :=
  fun _ => .responded r

/-- The upstream success response carrying the JSON value `v`. -/
def okJson (v : JSVal) : UpstreamResponse :=
  ⟨200, "OK", "", some v⟩

/-- The envelope with a single candidate whose single part is `part`. -/
def envelope (part : JSVal) : JSVal :=
  .obj [("candidates", .arr [.obj [("content", .obj [("parts", .arr [part])])]])]

/-- The translate request body with two string fields. -/
def translateBody (inputText targetLanguage : String) : JSVal :=
  .obj [("inputText", .str inputText), ("targetLanguage", .str targetLanguage)]

/-- The tts request body with two string fields. -/
def ttsBody (text targetLanguage : String) : JSVal :=
  .obj [("text", .str text), ("targetLanguage", .str targetLanguage)]

/-! ## Basic facts -/

theorem nonEmptyString_eq_true {v : JSVal} (h : nonEmptyString v = true) :
    ∃ s, v = .str s ∧ s ≠ "" := by
  cases v <;> simp [nonEmptyString] at h
  exact ⟨_, rfl, h⟩

theorem isNullish_of_member {v : JSVal} {key : String} {s : String}
    (h : member v key = .str s) : isNullish v = false := by
  cases v <;> simp [member, isNullish] at h ⊢

theorem errorBody_eq (msg : String) : errorBody msg = .obj [("error", .str msg)] := rfl

theorem jsToString_str (s : String) : jsToString (.str s) = .ok s := by
  rw [jsToString]

/-- A valid translate request reaches the credential check with its two strings. -/
theorem translateTry_valid (strPos : String → Bool) (fetch : OutboundRequest → FetchResult)
    (apiKey : Option String) (body : JSVal) (hv : validTranslate body = true) :
    ∃ prompt, translateTry strPos fetch apiKey body =
      if !keyConfigured apiKey then ([], .ok ⟨500, errorBody "API key not configured"⟩)
      else match fetch ⟨translateUrl apiKey, translatePayload prompt⟩ with
        | .failed => ([⟨translateUrl apiKey, translatePayload prompt⟩], .error .networkError)
        | .responded r =>
          ([⟨translateUrl apiKey, translatePayload prompt⟩], translateAfter strPos r) := by
  simp only [validTranslate, Bool.and_eq_true] at hv
  obtain ⟨a, ha, ha0⟩ := nonEmptyString_eq_true hv.1
  obtain ⟨b, hb, hb0⟩ := nonEmptyString_eq_true hv.2
  have hn := isNullish_of_member ha
  refine ⟨"Translate the following Manipuri text to " ++ b ++
        ". Only output the translated text without any prefixes, conversational phrases, or extra information. If the input is Romanized Manipuri, process it as such. If it's Meitei Mayek, process it as Meitei Mayek.\n        \nManipuri Text: " ++ a, ?_⟩
  simp only [translateTry, getProp, hn, ha, hb, truthy]
  simp [ha0, hb0, translatePrompt, jsToString_str]

/-- A valid tts request reaches the credential check with the selected voice. -/
theorem ttsTry_valid (fetch : OutboundRequest → FetchResult)
    (apiKey : Option String) (body : JSVal) (hv : validTts body = true) :
    ttsTry fetch apiKey body =
      if !keyConfigured apiKey then ([], .ok ⟨500, errorBody "API key not configured"⟩)
      else match fetch ⟨ttsUrl apiKey,
          ttsPayload (member body "text") (selectVoice (member body "targetLanguage"))⟩ with
        | .failed => ([⟨ttsUrl apiKey,
            ttsPayload (member body "text") (selectVoice (member body "targetLanguage"))⟩],
            .error .networkError)
        | .responded r => ([⟨ttsUrl apiKey,
            ttsPayload (member body "text") (selectVoice (member body "targetLanguage"))⟩],
            ttsAfter r) := by
  simp only [validTts, Bool.and_eq_true] at hv
  obtain ⟨a, ha, ha0⟩ := nonEmptyString_eq_true hv.1
  obtain ⟨b, hb, hb0⟩ := nonEmptyString_eq_true hv.2
  have hn := isNullish_of_member ha
  simp only [ttsTry, getProp, hn, ha, hb, truthy]
  simp [ha0, hb0]

/-- The response of the translation handler for a valid request with a
credential, when the upstream answers `r`. -/
theorem translateHandler_valid (strPos : String → Bool) (apiKey : Option String)
    (body : JSVal) (r : UpstreamResponse)
    (hv : validTranslate body = true) (hk : keyConfigured apiKey = true) :
    (translateHandler strPos (always r) apiKey body).response =
      match translateAfter strPos r with
      | .ok response => response
      | .error _ => ⟨500, errorBody "Translation failed"⟩ := by
  obtain ⟨prompt, hp⟩ := translateTry_valid strPos (always r) apiKey body hv
  simp only [translateHandler, hp, hk, always]
  cases translateAfter strPos r <;> simp

/-- The response of the speech handler for a valid request with a credential,
when the upstream answers `r`. -/
theorem ttsHandler_valid (apiKey : Option String) (body : JSVal) (r : UpstreamResponse)
    (hv : validTts body = true) (hk : keyConfigured apiKey = true) :
    (ttsHandler (always r) apiKey body).response =
      match ttsAfter r with
      | .ok response => response
      | .error _ => ⟨500, errorBody "TTS failed"⟩ := by
  simp only [ttsHandler, ttsTry_valid (always r) apiKey body hv, hk, always]
  cases ttsAfter r <;> simp

theorem translateAfter_status (strPos : String → Bool) (r : UpstreamResponse)
    (response : Response) (h : translateAfter strPos r = .ok response) :
    response.status = 200 ∨ response.status = 500 := by
  unfold translateAfter at h
  split at h
  · cases h; exact Or.inr rfl
  · split at h
    · cases h
    · split at h
      · cases h
      · split at h
        · cases h
        · cases h; exact Or.inl rfl
      · cases h; exact Or.inr rfl

theorem ttsAfter_status (r : UpstreamResponse)
    (response : Response) (h : ttsAfter r = .ok response) :
    response.status = 200 ∨ response.status = 500 := by
  unfold ttsAfter at h
  split at h
  · cases h; exact Or.inr rfl
  · split at h
    · cases h
    · simp only at h
      split at h
      · split at h
        · split at h
          · cases h; exact Or.inl rfl
          · cases h; exact Or.inr rfl
        · cases h
      · cases h; exact Or.inr rfl

/-- Past the field validation the translation handler answers 200 or 500. -/
theorem translateHandler_past_validation (strPos : String → Bool)
    (fetch : OutboundRequest → FetchResult) (apiKey : Option String) (body : JSVal)
    (h1 : truthy (member body "inputText") = true)
    (h2 : truthy (member body "targetLanguage") = true) :
    (translateHandler strPos fetch apiKey body).response.status = 200 ∨
    (translateHandler strPos fetch apiKey body).response.status = 500 := by
  have hn : isNullish body = false := by
    cases body <;> simp [member, isNullish, truthy] at h1 ⊢
  simp only [translateHandler, translateTry, getProp, hn, h1, h2, Bool.false_eq_true,
    ↓reduceIte, Bool.not_true, Bool.or_self]
  cases translatePrompt (member body "inputText") (member body "targetLanguage") with
  | error e => exact Or.inr rfl
  | ok prompt =>
    simp only
    cases keyConfigured apiKey with
    | false => exact Or.inr rfl
    | true =>
      simp only [Bool.not_true, Bool.false_eq_true, ↓reduceIte]
      cases fetch ⟨translateUrl apiKey, translatePayload prompt⟩ with
      | failed => exact Or.inr rfl
      | responded r =>
        simp only
        cases h : translateAfter strPos r with
        | error e => exact Or.inr rfl
        | ok response => exact translateAfter_status strPos r response h

/-- Past the field validation the speech handler answers 200 or 500. -/
theorem ttsHandler_past_validation
    (fetch : OutboundRequest → FetchResult) (apiKey : Option String) (body : JSVal)
    (h1 : truthy (member body "text") = true)
    (h2 : truthy (member body "targetLanguage") = true) :
    (ttsHandler fetch apiKey body).response.status = 200 ∨
    (ttsHandler fetch apiKey body).response.status = 500 := by
  have hn : isNullish body = false := by
    cases body <;> simp [member, isNullish, truthy] at h1 ⊢
  simp only [ttsHandler, ttsTry, getProp, hn, h1, h2, Bool.false_eq_true,
    ↓reduceIte, Bool.not_true, Bool.or_self]
  cases keyConfigured apiKey with
  | false => exact Or.inr rfl
  | true =>
    simp only [Bool.not_true, Bool.false_eq_true, ↓reduceIte]
    cases fetch ⟨ttsUrl apiKey,
        ttsPayload (member body "text") (selectVoice (member body "targetLanguage"))⟩ with
    | failed => exact Or.inr rfl
    | responded r =>
      simp only
      cases h : ttsAfter r with
      | error e => exact Or.inr rfl
      | ok response => exact ttsAfter_status r response h

/-- A request that fails the field validation of the translation handler gets
status 400 and no call is made. -/
theorem translateHandler_invalid (strPos : String → Bool)
    (fetch : OutboundRequest → FetchResult) (apiKey : Option String) (body : JSVal)
    (hn : isNullish body = false)
    (h : truthy (member body "inputText") = false ∨
      truthy (member body "targetLanguage") = false) :
    translateHandler strPos fetch apiKey body =
      ⟨⟨400, .obj [("error", .str "Missing required fields: inputText and targetLanguage")]⟩,
        []⟩ := by
  simp only [translateHandler, translateTry, getProp, hn]
  rcases h with h | h <;> simp [h, errorBody_eq]

/-- A request that fails the field validation of the speech handler gets status
400 and no call is made. -/
theorem ttsHandler_invalid
    (fetch : OutboundRequest → FetchResult) (apiKey : Option String) (body : JSVal)
    (hn : isNullish body = false)
    (h : truthy (member body "text") = false ∨
      truthy (member body "targetLanguage") = false) :
    ttsHandler fetch apiKey body =
      ⟨⟨400, .obj [("error", .str "Missing required fields: text and targetLanguage")]⟩,
        []⟩ := by
  simp only [ttsHandler, ttsTry, getProp, hn]
  rcases h with h | h <;> simp [h, errorBody_eq]

/-- Without a credential the translation handler issues no call. -/
theorem translateHandler_no_key_calls (strPos : String → Bool)
    (fetch : OutboundRequest → FetchResult) (apiKey : Option String) (body : JSVal)
    (hk : keyConfigured apiKey = false) :
    (translateHandler strPos fetch apiKey body).calls = [] := by
  simp only [translateHandler, translateTry, hk]
  cases getProp body "inputText" with
  | error e => rfl
  | ok inputText =>
    cases getProp body "targetLanguage" with
    | error e => rfl
    | ok targetLanguage =>
      by_cases hc : (!truthy inputText || !truthy targetLanguage) = true
      · simp only [hc, ↓reduceIte]
      · simp only [hc, ↓reduceIte, Bool.not_false, Bool.false_eq_true]
        cases translatePrompt inputText targetLanguage with
        | error e => rfl
        | ok prompt => rfl

/-- Without a credential the speech handler issues no call. -/
theorem ttsHandler_no_key_calls
    (fetch : OutboundRequest → FetchResult) (apiKey : Option String) (body : JSVal)
    (hk : keyConfigured apiKey = false) :
    (ttsHandler fetch apiKey body).calls = [] := by
  simp only [ttsHandler, ttsTry, hk]
  cases getProp body "text" with
  | error e => rfl
  | ok text =>
    cases getProp body "targetLanguage" with
    | error e => rfl
    | ok targetLanguage =>
      by_cases hc : (!truthy text || !truthy targetLanguage) = true
      · simp only [hc, ↓reduceIte]
      · simp only [hc, ↓reduceIte, Bool.not_false, Bool.false_eq_true]

/-! ## Paths into the upstream envelope -/

theorem jsonAt_nil (v w : JSVal) : jsonAt v [] = some w ↔ v = w := by
  simp [jsonAt]

theorem jsonAt_cons (v : JSVal) (s : Step) (rest : List Step) (w : JSVal) :
    jsonAt v (s :: rest) = some w ↔ ∃ u, child v s = some u ∧ jsonAt u rest = some w := by
  cases h : child v s <;> simp [jsonAt, h]

theorem jsonAt_append (v : JSVal) (p q : List Step) (w : JSVal) :
    jsonAt v (p ++ q) = some w ↔ ∃ u, jsonAt v p = some u ∧ jsonAt u q = some w := by
  induction p generalizing v with
  | nil => simp [jsonAt]
  | cons s rest ih =>
    simp only [List.cons_append, jsonAt_cons, ih]
    constructor
    · rintro ⟨u, hu, x, hx, hw⟩
      exact ⟨x, ⟨u, hu, hx⟩, hw⟩
    · rintro ⟨x, ⟨u, hu, hx⟩, hw⟩
      exact ⟨u, hu, x, hx, hw⟩

theorem child_key_some {v : JSVal} {k : String} {w : JSVal}
    (h : child v (.key k) = some w) :
    isNullish v = false ∧ truthy v = true ∧ member v k = w := by
  cases v <;> simp [child] at h
  simp [isNullish, truthy, member, h]

theorem child_idx_some {v : JSVal} {i : Nat} {w : JSVal}
    (h : child v (.idx i) = some w) :
    isNullish v = false ∧ truthy v = true ∧ element v i = w ∧
      ∃ n : Int, member v "length" = .num n ∧ 0 < n := by
  cases v <;> simp [child] at h
  rename_i xs
  refine ⟨rfl, rfl, ?_, xs.length, by simp [member], ?_⟩
  · simp [element, List.getD, h]
  · cases xs with
    | nil => simp at h
    | cons x rest => simp

theorem getProp_of_child {v : JSVal} {k : String} {w : JSVal}
    (h : child v (.key k) = some w) : getProp v k = .ok w := by
  obtain ⟨hn, _, hm⟩ := child_key_some h
  simp [getProp, hn, hm]

theorem getIndex_of_child {v : JSVal} {i : Nat} {w : JSVal}
    (h : child v (.idx i) = some w) : getIndex v i = .ok w := by
  obtain ⟨hn, _, hm, _⟩ := child_idx_some h
  simp [getIndex, hn, hm]

theorem optProp_of_child {v : JSVal} {k : String} {w : JSVal}
    (h : child v (.key k) = some w) : optProp v k = w := by
  obtain ⟨hn, _, hm⟩ := child_key_some h
  simp [optProp, hn, hm]

theorem optIndex_of_child {v : JSVal} {i : Nat} {w : JSVal}
    (h : child v (.idx i) = some w) : optIndex v i = w := by
  obtain ⟨hn, _, hm, _⟩ := child_idx_some h
  simp [optIndex, hn, hm]

theorem gtZero_length_of_child (strPos : String → Bool) {v : JSVal} {i : Nat} {w : JSVal}
    (h : child v (.idx i) = some w) :
    ∃ len, getProp v "length" = .ok len ∧ gtZero strPos len = .ok true := by
  obtain ⟨hn, _, _, n, hlen, hpos⟩ := child_idx_some h
  exact ⟨.num n, by simp [getProp, hn, hlen], by simp [gtZero, hpos]⟩

/-- An envelope in which the path `candidates[0].content.parts[0]` leads to
`part` passes the shape test of the translation handler, and both handlers
read `part` as the first part. -/
theorem envelope_part (strPos : String → Bool) {result part : JSVal}
    (h : jsonAt result partPath = some part) :
    translateShapeOk strPos result = .ok true ∧
    translatedTextOf result = getProp part "text" ∧
    firstPart result = part := by
  simp only [partPath, jsonAt_cons, jsonAt_nil] at h
  obtain ⟨candidates, h1, first, h2, content, h3, parts, h4, part', h5, rfl⟩ := h
  obtain ⟨len, hl, hg⟩ := gtZero_length_of_child strPos h2
  obtain ⟨plen, hpl, hpg⟩ := gtZero_length_of_child strPos h5
  have t1 := (child_idx_some h2).2.1
  have t2 := (child_key_some h4).2.1
  have t3 := (child_idx_some h5).2.1
  refine ⟨?_, ?_, ?_⟩
  · simp [translateShapeOk, getProp_of_child h1, getIndex_of_child h2, getProp_of_child h3,
      getProp_of_child h4, hl, hg, hpl, hpg, t1, t2, t3]
  · simp [translatedTextOf, getProp_of_child h1, getIndex_of_child h2, getProp_of_child h3,
      getProp_of_child h4, getIndex_of_child h5]
  · simp [firstPart, optProp_of_child h1, optIndex_of_child h2, optProp_of_child h3,
      optProp_of_child h4, optIndex_of_child h5]

/-! ## The shape test of the translation handler -/

theorem isNullish_of_truthy {v : JSVal} (h : truthy v = true) : isNullish v = false := by
  cases v <;> simp [truthy, isNullish] at h ⊢

/-- When the shape test of lines 56-58 passes, line 59 reads the `text` of the
value that the optional chain of line 137 reaches. -/
theorem shapeOk_firstPart (strPos : String → Bool) (result : JSVal)
    (h : translateShapeOk strPos result = .ok true) :
    translatedTextOf result = getProp (firstPart result) "text" := by
  unfold translateShapeOk at h
  cases hr : isNullish result with
  | true => simp [getProp, hr] at h
  | false =>
    simp only [getProp, hr, Bool.false_eq_true, ↓reduceIte] at h
    cases hc : truthy (member result "candidates") with
    | false => simp [hc] at h
    | true =>
      have hcn := isNullish_of_truthy hc
      simp only [hc, hcn, ↓reduceIte, Bool.false_eq_true] at h
      cases hg : gtZero strPos (member (member result "candidates") "length") with
      | error e => simp [hg] at h
      | ok b =>
        cases b with
        | false => simp [hg] at h
        | true =>
          simp only [hg, getIndex, hcn, Bool.false_eq_true, ↓reduceIte] at h
          cases hf : isNullish (element (member result "candidates") 0) with
          | true => simp [hf] at h
          | false =>
            simp only [hf, Bool.false_eq_true, ↓reduceIte] at h
            cases hct : truthy (member (element (member result "candidates") 0) "content") with
            | false => simp [hct] at h
            | true =>
              have hctn := isNullish_of_truthy hct
              simp only [hct, hctn, ↓reduceIte, Bool.false_eq_true] at h
              cases hp : truthy (member (member (element (member result "candidates") 0)
                  "content") "parts") with
              | false => simp [hp] at h
              | true =>
                have hpn := isNullish_of_truthy hp
                simp [translatedTextOf, firstPart, getProp, getIndex, optProp, optIndex, hr,
                  hcn, hf, hctn, hpn]

/-- When the optional chain `candidates[0].content.parts[0]` of an upstream
success body ends in `undefined` or `null`, the translation handler answers 500
with one of its two fixed messages. -/
theorem translateAfter_nullish_part (strPos : String → Bool) (r : UpstreamResponse)
    (result : JSVal) (hok : responseOk r = true) (hj : r.json = some result)
    (hmiss : isNullish (firstPart result) = true) :
    translateAfter strPos r = .ok ⟨500, errorBody "Unexpected API response structure"⟩ ∨
    ∃ e, translateAfter strPos r = .error e := by
  simp only [translateAfter, hok, hj, Bool.not_true, Bool.false_eq_true, ↓reduceIte]
  cases hs : translateShapeOk strPos result with
  | error e => exact Or.inr ⟨e, rfl⟩
  | ok b =>
    cases b with
    | false => exact Or.inl rfl
    | true =>
      refine Or.inr ⟨.typeError, ?_⟩
      simp [shapeOk_firstPart strPos result hs, getProp, hmiss]

theorem isNullish_of_member_ne {v : JSVal} {key : String}
    (h : member v key ≠ .undefined) : isNullish v = false := by
  cases v <;> simp [member, isNullish] at h ⊢

theorem optProp_of_member_undefined (v : JSVal) (key : String)
    (h : member v key = .undefined) : optProp v key = .undefined := by
  unfold optProp
  split
  · rfl
  · exact h

theorem optProp_of_member_ne (v : JSVal) (key : String)
    (h : member v key ≠ .undefined) : optProp v key = member v key := by
  simp only [optProp, isNullish_of_member_ne h, Bool.false_eq_true, ↓reduceIte]

/-- Each case of `missingLink` makes the optional chain end in `undefined`. -/
theorem firstPart_of_missingLink (result : JSVal) (h : missingLink result = true) :
    isNullish (firstPart result) = true := by
  unfold missingLink at h
  unfold firstPart
  split at h
  · rename_i hc
    rw [optProp_of_member_undefined result "candidates" hc]
    rfl
  · rename_i hc
    rw [optProp_of_member_ne result "candidates" (by rw [hc]; exact JSVal.noConfusion), hc]
    rfl
  · rename_i first rest hc
    rw [optProp_of_member_ne result "candidates" (by rw [hc]; exact JSVal.noConfusion), hc]
    show isNullish (optIndex (optProp (optProp first "content") "parts") 0) = true
    split at h
    · rename_i hct
      rw [optProp_of_member_undefined first "content" hct]
      rfl
    · rename_i content hne
      rw [optProp_of_member_ne first "content" (fun hu => hne hu)]
      split at h
      · rename_i hp
        rw [optProp_of_member_undefined _ "parts" hp]
        rfl
      · rename_i hp
        rw [optProp_of_member_ne _ "parts" (by rw [hp]; exact JSVal.noConfusion), hp]
        rfl
      · cases h
  · cases h

/-! ## The responses of the speech handler -/

theorem jsonBody_audio {a : JSVal} (m : String) (h : truthy a = true) :
    jsonBody [("audioData", a), ("mimeType", .str m)] =
      .obj [("audioData", a), ("mimeType", .str m)] := by
  cases a <;> simp [jsonBody, truthy] at h ⊢

/-- What `ttsAfter` can answer: 200 with an audio type, or 500 with an error. -/
theorem ttsAfter_cases (r : UpstreamResponse) (response : Response)
    (h : ttsAfter r = .ok response) :
    (∃ a m, response = ⟨200, .obj [("audioData", a), ("mimeType", .str m)]⟩ ∧
      startsWith m "audio/" = true) ∨
    (∃ msg, response = ⟨500, .obj [("error", .str msg)]⟩) := by
  unfold ttsAfter at h
  split at h
  · cases h; exact Or.inr ⟨_, rfl⟩
  · split at h
    · cases h
    · simp only at h
      split at h
      · rename_i hc
        simp only [Bool.and_eq_true] at hc
        split at h
        · rename_i m hm
          split at h
          · rename_i hsw
            cases h
            rw [hm, jsonBody_audio m hc.1]
            exact Or.inl ⟨_, m, rfl, hsw⟩
          · cases h; exact Or.inr ⟨_, rfl⟩
        · cases h
      · cases h; exact Or.inr ⟨_, rfl⟩

/-- Every response of the speech handler is an error response with status 400
or 500, or comes from `ttsAfter`. -/
theorem ttsHandler_cases (fetch : OutboundRequest → FetchResult) (apiKey : Option String)
    (body : JSVal) :
    (∃ msg, (ttsHandler fetch apiKey body).response = ⟨400, .obj [("error", .str msg)]⟩) ∨
    (∃ msg, (ttsHandler fetch apiKey body).response = ⟨500, .obj [("error", .str msg)]⟩) ∨
    (∃ r, ttsAfter r = .ok (ttsHandler fetch apiKey body).response) := by
  simp only [ttsHandler, ttsTry]
  cases getProp body "text" with
  | error e => exact Or.inr (Or.inl ⟨_, rfl⟩)
  | ok text =>
    cases getProp body "targetLanguage" with
    | error e => exact Or.inr (Or.inl ⟨_, rfl⟩)
    | ok targetLanguage =>
      by_cases hc : (!truthy text || !truthy targetLanguage) = true
      · simp only [hc, ↓reduceIte]
        exact Or.inl ⟨_, rfl⟩
      · simp only [hc, ↓reduceIte, Bool.false_eq_true]
        cases keyConfigured apiKey with
        | false => exact Or.inr (Or.inl ⟨_, rfl⟩)
        | true =>
          simp only [Bool.not_true, Bool.false_eq_true, ↓reduceIte]
          cases fetch ⟨ttsUrl apiKey, ttsPayload text (selectVoice targetLanguage)⟩ with
          | failed => exact Or.inr (Or.inl ⟨_, rfl⟩)
          | responded r =>
            simp only
            cases h : ttsAfter r with
            | error e => exact Or.inr (Or.inl ⟨"TTS failed", rfl⟩)
            | ok response => exact Or.inr (Or.inr ⟨r, h⟩)

/-! ## The claims -/

/-- C1. Voice selection as a function of `targetLanguage`: each of the seventeen
table languages gives the voice of the table, and every other string (the empty
string, a name in another case, an unknown language) gives the default `Kore`. -/
theorem selectVoice_table :
    (selectVoice (.str "English") = "Zephyr" ∧
     selectVoice (.str "Hindi") = "Rasalgethi" ∧
     selectVoice (.str "Bengali") = "Sadachbia" ∧
     selectVoice (.str "Spanish") = "Autonoe" ∧
     selectVoice (.str "French") = "Charon" ∧
     selectVoice (.str "German") = "Fenrir" ∧
     selectVoice (.str "Japanese") = "Leda" ∧
     selectVoice (.str "Korean") = "Orus" ∧
     selectVoice (.str "Italian") = "Aoede" ∧
     selectVoice (.str "Portuguese") = "Callirrhoe" ∧
     selectVoice (.str "Russian") = "Enceladus" ∧
     selectVoice (.str "Dutch") = "Iapetus" ∧
     selectVoice (.str "Polish") = "Umbriel" ∧
     selectVoice (.str "Thai") = "Algenib" ∧
     selectVoice (.str "Turkish") = "Rasalgethi" ∧
     selectVoice (.str "Vietnamese") = "Laomedeia" ∧
     selectVoice (.str "Assamese") = "Achernar") ∧
    ∀ s : String, s ∉ voiceLanguages → selectVoice (.str s) = "Kore" := by
  refine ⟨by decide, ?_⟩
  intro s hs
  simp only [voiceLanguages, List.mem_cons, List.mem_singleton, List.not_mem_nil, or_false,
    not_or] at hs
  simp [selectVoice, strictEqStr, hs]

/-- C1 at the strings `english` and the empty string. -/
theorem selectVoice_table_witness :
    ("english" ∉ voiceLanguages ∧ selectVoice (.str "english") = "Kore") ∧
    ("" ∉ voiceLanguages ∧ selectVoice (.str "") = "Kore") :=
  ⟨⟨by decide, selectVoice_table.2 "english" (by decide)⟩,
   ⟨by decide, selectVoice_table.2 "" (by decide)⟩⟩

/-- C2. A translate request whose body lacks `inputText` or `targetLanguage`, and
a tts request whose body lacks `text` or `targetLanguage`, gets status 400 with
an `error` field and no outbound call is made, whatever the credential and
whatever the upstream would answer. -/
theorem missing_field_is_400 (strPos : String → Bool) (fetch : OutboundRequest → FetchResult)
    (apiKey : Option String) (fields : List (String × JSVal)) :
    (fields.lookup "inputText" = none ∨ fields.lookup "targetLanguage" = none →
      translateHandler strPos fetch apiKey (.obj fields) =
        ⟨⟨400, .obj [("error", .str "Missing required fields: inputText and targetLanguage")]⟩,
          []⟩) ∧
    (fields.lookup "text" = none ∨ fields.lookup "targetLanguage" = none →
      ttsHandler fetch apiKey (.obj fields) =
        ⟨⟨400, .obj [("error", .str "Missing required fields: text and targetLanguage")]⟩,
          []⟩) := by
  constructor
  · intro h
    apply translateHandler_invalid strPos fetch apiKey (.obj fields) rfl
    rcases h with h | h
    · exact Or.inl (by simp [member, h, truthy])
    · exact Or.inr (by simp [member, h, truthy])
  · intro h
    apply ttsHandler_invalid fetch apiKey (.obj fields) rfl
    rcases h with h | h
    · exact Or.inl (by simp [member, h, truthy])
    · exact Or.inr (by simp [member, h, truthy])

/-- C2 at the body with only `targetLanguage`, with a credential configured. -/
theorem missing_field_is_400_witness :
    (translateHandler (fun _ => false) (always (okJson .null)) (some "k")
        (.obj [("targetLanguage", .str "English")]) =
      ⟨⟨400, .obj [("error", .str "Missing required fields: inputText and targetLanguage")]⟩,
        []⟩) ∧
    (ttsHandler (always (okJson .null)) (some "k") (.obj [("targetLanguage", .str "English")]) =
      ⟨⟨400, .obj [("error", .str "Missing required fields: text and targetLanguage")]⟩,
        []⟩) :=
  ⟨(missing_field_is_400 (fun _ => false) (always (okJson .null)) (some "k")
      [("targetLanguage", .str "English")]).1 (Or.inl rfl),
   (missing_field_is_400 (fun _ => false) (always (okJson .null)) (some "k")
      [("targetLanguage", .str "English")]).2 (Or.inl rfl)⟩

/-- C3 as stated fails: with no credential, the empty body gets status 400 from
both endpoints, not 500. -/
theorem no_credential_empty_body_is_400 :
    (translateHandler (fun _ => false) (fun _ => .failed) none (.obj [])).response.status = 400 ∧
    (ttsHandler (fun _ => .failed) none (.obj [])).response.status = 400 ∧
    (translateHandler (fun _ => false) (fun _ => .failed) none (.obj [])).response.status ≠ 500 ∧
    (ttsHandler (fun _ => .failed) none (.obj [])).response.status ≠ 500 := by
  decide

/-- C3 amended. With no credential configured, no outbound call is attempted for
any request body, and every request whose two required fields are non-empty
strings gets status 500 with the error `API key not configured`, from both
endpoints. -/
theorem no_credential_is_500 (strPos : String → Bool) (fetch : OutboundRequest → FetchResult)
    (apiKey : Option String) (hk : keyConfigured apiKey = false) :
    (∀ body, (translateHandler strPos fetch apiKey body).calls = [] ∧
      (ttsHandler fetch apiKey body).calls = []) ∧
    (∀ body, validTranslate body = true →
      translateHandler strPos fetch apiKey body =
        ⟨⟨500, .obj [("error", .str "API key not configured")]⟩, []⟩) ∧
    (∀ body, validTts body = true →
      ttsHandler fetch apiKey body =
        ⟨⟨500, .obj [("error", .str "API key not configured")]⟩, []⟩) := by
  refine ⟨fun body => ⟨translateHandler_no_key_calls strPos fetch apiKey body hk,
    ttsHandler_no_key_calls fetch apiKey body hk⟩, ?_, ?_⟩
  · intro body hv
    obtain ⟨prompt, hp⟩ := translateTry_valid strPos fetch apiKey body hv
    simp [translateHandler, hp, hk, errorBody_eq]
  · intro body hv
    simp [ttsHandler, ttsTry_valid fetch apiKey body hv, hk, errorBody_eq]

/-- C3 amended, with the variable unset and with the variable set to the empty
string. -/
theorem no_credential_is_500_witness :
    (keyConfigured none = false ∧ validTranslate (translateBody "nungaibra" "English") = true ∧
      translateHandler (fun _ => false) (always (okJson .null)) none
          (translateBody "nungaibra" "English") =
        ⟨⟨500, .obj [("error", .str "API key not configured")]⟩, []⟩) ∧
    (keyConfigured (some "") = false ∧ validTts (ttsBody "hello" "English") = true ∧
      ttsHandler (always (okJson .null)) (some "") (ttsBody "hello" "English") =
        ⟨⟨500, .obj [("error", .str "API key not configured")]⟩, []⟩) :=
  ⟨⟨by decide, by decide,
    (no_credential_is_500 (fun _ => false) (always (okJson .null)) none (by decide)).2.1
      (translateBody "nungaibra" "English") (by decide)⟩,
   ⟨by decide, by decide,
    (no_credential_is_500 (fun _ => false) (always (okJson .null)) (some "") (by decide)).2.2
      (ttsBody "hello" "English") (by decide)⟩⟩

/-- C4. For a valid translate request with a credential: when the upstream
answers with success and a body whose `candidates[0].content.parts[0].text` is
the string `t`, the handler answers 200 with the body `translatedText: t`, the
string unchanged. -/
theorem translate_returns_upstream_text (strPos : String → Bool) (apiKey : Option String)
    (body : JSVal) (r : UpstreamResponse) (result : JSVal) (t : String)
    (hv : validTranslate body = true) (hk : keyConfigured apiKey = true)
    (hok : responseOk r = true) (hj : r.json = some result)
    (ht : jsonAt result (partPath ++ [.key "text"]) = some (.str t)) :
    (translateHandler strPos (always r) apiKey body).response =
      ⟨200, .obj [("translatedText", .str t)]⟩ := by
  rw [translateHandler_valid strPos apiKey body r hv hk]
  obtain ⟨part, hp, hpt⟩ := (jsonAt_append _ _ _ _).1 ht
  simp only [jsonAt_cons, jsonAt_nil] at hpt
  obtain ⟨u, hu, rfl⟩ := hpt
  obtain ⟨hs, htx, _⟩ := envelope_part strPos hp
  simp [translateAfter, hok, hj, hs, htx, getProp_of_child hu, jsonBody]

/-- C4 at the envelope of the specification, whose text is `Eikhoi`. -/
theorem translate_returns_upstream_text_witness :
    (translateHandler (fun _ => false)
        (always (okJson (envelope (.obj [("text", .str "Eikhoi")])))) (some "k")
        (translateBody "nungaibra" "English")).response =
      ⟨200, .obj [("translatedText", .str "Eikhoi")]⟩ :=
  translate_returns_upstream_text (fun _ => false) (some "k")
    (translateBody "nungaibra" "English")
    (okJson (envelope (.obj [("text", .str "Eikhoi")])))
    (envelope (.obj [("text", .str "Eikhoi")])) "Eikhoi"
    (by decide) (by decide) (by decide) rfl rfl

/-- C5, the code at the failing input: the upstream answers with success and a
first part that has no `text`; the translation handler answers 200 with an
empty object, the property `translatedText` being left out as `undefined`. -/
theorem translate_part_without_text :
    (translateHandler (fun _ => false) (always (okJson (envelope (.obj [])))) (some "k")
        (translateBody "nungaibra" "English")).response.status = 200 ∧
    (translateHandler (fun _ => false) (always (okJson (envelope (.obj [])))) (some "k")
        (translateBody "nungaibra" "English")).response.body = .obj [] :=
  ⟨by decide, rfl⟩

theorem startsWith_ne_empty {m : String} (h : startsWith m "audio/" = true) : m ≠ "" := by
  rintro rfl
  revert h
  decide

/-- C7. For a valid tts request with a credential: when the upstream answers
with success and a body whose `candidates[0].content.parts[0].inlineData` has
`data` the non-empty string `d` and `mimeType` the string `m` starting with
`audio/`, the handler answers 200 with `audioData: d` and `mimeType: m`. -/
theorem tts_returns_upstream_audio (apiKey : Option String)
    (body : JSVal) (r : UpstreamResponse) (result : JSVal) (d m : String)
    (hv : validTts body = true) (hk : keyConfigured apiKey = true)
    (hok : responseOk r = true) (hj : r.json = some result)
    (hd : jsonAt result (partPath ++ [.key "inlineData", .key "data"]) = some (.str d))
    (hm : jsonAt result (partPath ++ [.key "inlineData", .key "mimeType"]) = some (.str m))
    (hd0 : d ≠ "") (hm0 : startsWith m "audio/" = true) :
    (ttsHandler (always r) apiKey body).response =
      ⟨200, .obj [("audioData", .str d), ("mimeType", .str m)]⟩ := by
  rw [ttsHandler_valid apiKey body r hv hk]
  obtain ⟨part, hp, hpd⟩ := (jsonAt_append _ _ _ _).1 hd
  obtain ⟨part', hp', hpm⟩ := (jsonAt_append _ _ _ _).1 hm
  obtain rfl : part = part' := Option.some.inj (hp.symm.trans hp')
  simp only [jsonAt_cons, jsonAt_nil] at hpd hpm
  obtain ⟨inl, hi, u, hu, rfl⟩ := hpd
  obtain ⟨inl', hi', u', hu', rfl⟩ := hpm
  obtain rfl : inl = inl' := Option.some.inj (hi.symm.trans hi')
  obtain ⟨_, _, hf⟩ := envelope_part (fun _ => false) hp
  have ha : audioDataOf result = .str d := by
    simp [audioDataOf, hf, optProp_of_child hi, optProp_of_child hu]
  have hmt : mimeTypeOf result = .str m := by
    simp [mimeTypeOf, hf, optProp_of_child hi, optProp_of_child hu']
  simp [ttsAfter, hok, hj, ha, hmt, truthy, hd0, startsWith_ne_empty hm0, hm0, jsonBody]

/-- C7 at the envelope of the specification: data `QUJD`, type `audio/wav`. -/
theorem tts_returns_upstream_audio_witness :
    (ttsHandler (always (okJson (envelope (.obj [("inlineData",
        .obj [("data", .str "QUJD"), ("mimeType", .str "audio/wav")])])))) (some "k")
        (ttsBody "hello" "English")).response =
      ⟨200, .obj [("audioData", .str "QUJD"), ("mimeType", .str "audio/wav")]⟩ :=
  tts_returns_upstream_audio (some "k") (ttsBody "hello" "English")
    (okJson (envelope (.obj [("inlineData",
        .obj [("data", .str "QUJD"), ("mimeType", .str "audio/wav")])])))
    (envelope (.obj [("inlineData",
        .obj [("data", .str "QUJD"), ("mimeType", .str "audio/wav")])])) "QUJD" "audio/wav"
    (by decide) (by decide) (by decide) rfl rfl rfl (by decide) (by decide)

/-- C9. For valid requests with a credential: when the upstream answers with a
non-success status, each handler answers 500 with a fixed message followed by
that status; two upstream answers with the same status give the same response,
whatever their bodies. -/
theorem upstream_error_is_generic (strPos : String → Bool) (apiKey : Option String)
    (tbody sbody : JSVal) (hk : keyConfigured apiKey = true)
    (ht : validTranslate tbody = true) (hs : validTts sbody = true) :
    (∀ r, responseOk r = false →
      (translateHandler strPos (always r) apiKey tbody).response =
        ⟨500, .obj [("error", .str ("Translation service error: " ++ toString r.status))]⟩ ∧
      (ttsHandler (always r) apiKey sbody).response =
        ⟨500, .obj [("error", .str ("TTS service error: " ++ toString r.status))]⟩) ∧
    (∀ r₁ r₂, responseOk r₁ = false → r₁.status = r₂.status →
      (translateHandler strPos (always r₁) apiKey tbody).response =
        (translateHandler strPos (always r₂) apiKey tbody).response ∧
      (ttsHandler (always r₁) apiKey sbody).response =
        (ttsHandler (always r₂) apiKey sbody).response) := by
  have key : ∀ r, responseOk r = false →
      (translateHandler strPos (always r) apiKey tbody).response =
        ⟨500, .obj [("error", .str ("Translation service error: " ++ toString r.status))]⟩ ∧
      (ttsHandler (always r) apiKey sbody).response =
        ⟨500, .obj [("error", .str ("TTS service error: " ++ toString r.status))]⟩ := by
    intro r hr
    rw [translateHandler_valid strPos apiKey tbody r ht hk, ttsHandler_valid apiKey sbody r hs hk]
    simp [translateAfter, ttsAfter, hr, errorBody_eq]
  refine ⟨key, ?_⟩
  intro r₁ r₂ h₁ he
  have h₂ : responseOk r₂ = false := by
    simpa [responseOk, he] using h₁
  rw [(key r₁ h₁).1, (key r₁ h₁).2, (key r₂ h₂).1, (key r₂ h₂).2, he]
  exact ⟨rfl, rfl⟩

/-- C9 at two answers with status 503 and different bodies. -/
theorem upstream_error_is_generic_witness :
    (translateHandler (fun _ => false) (always ⟨503, "Service Unavailable", "quota", none⟩)
        (some "k") (translateBody "nungaibra" "English")).response =
      (translateHandler (fun _ => false)
        (always ⟨503, "Busy", "secret detail", some (.obj [("error", .str "secret detail")])⟩)
        (some "k") (translateBody "nungaibra" "English")).response ∧
    (ttsHandler (always ⟨503, "Service Unavailable", "quota", none⟩)
        (some "k") (ttsBody "hello" "English")).response =
      (ttsHandler
        (always ⟨503, "Busy", "secret detail", some (.obj [("error", .str "secret detail")])⟩)
        (some "k") (ttsBody "hello" "English")).response :=
  (upstream_error_is_generic (fun _ => false) (some "k") (translateBody "nungaibra" "English")
    (ttsBody "hello" "English") (by decide) (by decide) (by decide)).2
    ⟨503, "Service Unavailable", "quota", none⟩
    ⟨503, "Busy", "secret detail", some (.obj [("error", .str "secret detail")])⟩
    (by decide) rfl

/-- C10 as stated fails: a body whose `inputText` is the number 5 is not rejected
by the translation handler (the call goes out and the answer is 200), and a body
whose `text` is an array and whose `targetLanguage` is `true` is not rejected by
the speech handler. -/
theorem nonstring_fields_pass_validation :
    (translateHandler (fun _ => false)
        (always (okJson (envelope (.obj [("text", .str "Eikhoi")])))) (some "k")
        (.obj [("inputText", .num 5), ("targetLanguage", .str "English")])).response.status
      = 200 ∧
    (ttsHandler (always (okJson (envelope (.obj [("inlineData",
        .obj [("data", .str "QUJD"), ("mimeType", .str "audio/wav")])])))) (some "k")
        (.obj [("text", .arr []), ("targetLanguage", .bool true)])).response.status = 200 := by
  decide

/-- C10 amended. For every request body that is a JSON object, the translation
handler answers 400 exactly when `inputText` or `targetLanguage` is falsy
(absent, `null`, `false`, zero or the empty string), and the speech handler
exactly when `text` or `targetLanguage` is falsy. -/
theorem validation_is_truthiness (strPos : String → Bool)
    (fetch : OutboundRequest → FetchResult) (apiKey : Option String)
    (fields : List (String × JSVal)) :
    ((translateHandler strPos fetch apiKey (.obj fields)).response.status = 400 ↔
      (truthy (member (.obj fields) "inputText") = false ∨
        truthy (member (.obj fields) "targetLanguage") = false)) ∧
    ((ttsHandler fetch apiKey (.obj fields)).response.status = 400 ↔
      (truthy (member (.obj fields) "text") = false ∨
        truthy (member (.obj fields) "targetLanguage") = false)) := by
  constructor
  · constructor
    · intro h
      by_contra hc
      simp only [not_or, Bool.not_eq_false] at hc
      rcases translateHandler_past_validation strPos fetch apiKey _ hc.1 hc.2 with h' | h' <;>
        omega
    · intro h
      rw [translateHandler_invalid strPos fetch apiKey (.obj fields) rfl h]
  · constructor
    · intro h
      by_contra hc
      simp only [not_or, Bool.not_eq_false] at hc
      rcases ttsHandler_past_validation fetch apiKey _ hc.1 hc.2 with h' | h' <;> omega
    · intro h
      rw [ttsHandler_invalid fetch apiKey (.obj fields) rfl h]

/-- C6. For a valid translate request with a credential: when the upstream
answers with success and a JSON body in which a link before the first part is
missing (`candidates` missing or empty, `candidates[0]` without `content`,
`content` without `parts`, `parts` empty), the handler answers 500 with one of
its two fixed error bodies. The handler is a total function: a response is
produced in every case, an exception inside the `try` block included. -/
theorem translate_missing_link_is_500 (strPos : String → Bool) (apiKey : Option String)
    (body : JSVal) (r : UpstreamResponse) (result : JSVal)
    (hv : validTranslate body = true) (hk : keyConfigured apiKey = true)
    (hok : responseOk r = true) (hj : r.json = some result)
    (hmiss : missingLink result = true) :
    (translateHandler strPos (always r) apiKey body).response =
        ⟨500, .obj [("error", .str "Unexpected API response structure")]⟩ ∨
    (translateHandler strPos (always r) apiKey body).response =
        ⟨500, .obj [("error", .str "Translation failed")]⟩ := by
  rw [translateHandler_valid strPos apiKey body r hv hk]
  rcases translateAfter_nullish_part strPos r result hok hj
      (firstPart_of_missingLink result hmiss) with h | ⟨e, h⟩
  · rw [h]; exact Or.inl rfl
  · rw [h]; exact Or.inr rfl

/-- C6 at the upstream body without `candidates` and at the body whose first
candidate is `null`. -/
theorem translate_missing_link_is_500_witness :
    (missingLink (.obj []) = true ∧
      ((translateHandler (fun _ => false) (always (okJson (.obj []))) (some "k")
          (translateBody "nungaibra" "English")).response =
          ⟨500, .obj [("error", .str "Unexpected API response structure")]⟩ ∨
       (translateHandler (fun _ => false) (always (okJson (.obj []))) (some "k")
          (translateBody "nungaibra" "English")).response =
          ⟨500, .obj [("error", .str "Translation failed")]⟩)) ∧
    (missingLink (.obj [("candidates", .arr [.null])]) = true ∧
      ((translateHandler (fun _ => false)
          (always (okJson (.obj [("candidates", .arr [.null])]))) (some "k")
          (translateBody "nungaibra" "English")).response =
          ⟨500, .obj [("error", .str "Unexpected API response structure")]⟩ ∨
       (translateHandler (fun _ => false)
          (always (okJson (.obj [("candidates", .arr [.null])]))) (some "k")
          (translateBody "nungaibra" "English")).response =
          ⟨500, .obj [("error", .str "Translation failed")]⟩)) :=
  ⟨⟨rfl, translate_missing_link_is_500 (fun _ => false) (some "k")
      (translateBody "nungaibra" "English") (okJson (.obj [])) (.obj [])
      (by decide) (by decide) (by decide) rfl rfl⟩,
   ⟨rfl, translate_missing_link_is_500 (fun _ => false) (some "k")
      (translateBody "nungaibra" "English") (okJson (.obj [("candidates", .arr [.null])]))
      (.obj [("candidates", .arr [.null])])
      (by decide) (by decide) (by decide) rfl rfl⟩⟩

/-- C8. The speech handler never answers 200 with a `mimeType` that does not
begin with `audio/`: every response is either 200 with a string `mimeType`
beginning with `audio/`, or 400 or 500 with an `error` field. In particular, for
a valid request with a credential and an upstream success body whose
`part?.inlineData?.mimeType` is not a string beginning with `audio/` (another
type, another kind of value, or no `inlineData`), the answer is 500 with an
`error` field. -/
theorem tts_success_is_audio :
    (∀ (fetch : OutboundRequest → FetchResult) (apiKey : Option String) (body : JSVal),
      (∃ a m, (ttsHandler fetch apiKey body).response =
          ⟨200, .obj [("audioData", a), ("mimeType", .str m)]⟩ ∧
        startsWith m "audio/" = true) ∨
      (∃ msg, (ttsHandler fetch apiKey body).response = ⟨400, .obj [("error", .str msg)]⟩) ∨
      (∃ msg, (ttsHandler fetch apiKey body).response = ⟨500, .obj [("error", .str msg)]⟩)) ∧
    (∀ (apiKey : Option String) (body : JSVal) (r : UpstreamResponse) (result : JSVal),
      validTts body = true → keyConfigured apiKey = true →
      responseOk r = true → r.json = some result →
      (∀ m, mimeTypeOf result = .str m → startsWith m "audio/" = false) →
      (ttsHandler (always r) apiKey body).response =
          ⟨500, .obj [("error", .str "Unexpected TTS API response structure")]⟩ ∨
      (ttsHandler (always r) apiKey body).response =
          ⟨500, .obj [("error", .str "TTS failed")]⟩) := by
  constructor
  · intro fetch apiKey body
    rcases ttsHandler_cases fetch apiKey body with h | h | ⟨r, h⟩
    · exact Or.inr (Or.inl h)
    · exact Or.inr (Or.inr h)
    · rcases ttsAfter_cases r _ h with h' | h'
      · exact Or.inl h'
      · exact Or.inr (Or.inr h')
  · intro apiKey body r result hv hk hok hj hm
    rw [ttsHandler_valid apiKey body r hv hk]
    simp only [ttsAfter, hok, hj, Bool.not_true, Bool.false_eq_true, ↓reduceIte]
    by_cases hc : (truthy (audioDataOf result) && truthy (mimeTypeOf result)) = true
    · simp only [hc, ↓reduceIte]
      cases hmt : mimeTypeOf result with
      | str m =>
        simp only [hm m hmt, Bool.false_eq_true, ↓reduceIte]
        exact Or.inl rfl
      | _ => exact Or.inr rfl
    · simp only [hc, ↓reduceIte, Bool.false_eq_true]
      exact Or.inl rfl

/-- C8 at the upstream part with `inlineData.mimeType` equal to `text/plain`. -/
theorem tts_success_is_audio_witness :
    (ttsHandler (always (okJson (envelope (.obj [("inlineData",
        .obj [("data", .str "QUJD"), ("mimeType", .str "text/plain")])])))) (some "k")
        (ttsBody "hello" "English")).response =
          ⟨500, .obj [("error", .str "Unexpected TTS API response structure")]⟩ ∨
    (ttsHandler (always (okJson (envelope (.obj [("inlineData",
        .obj [("data", .str "QUJD"), ("mimeType", .str "text/plain")])])))) (some "k")
        (ttsBody "hello" "English")).response =
          ⟨500, .obj [("error", .str "TTS failed")]⟩ :=
  tts_success_is_audio.2 (some "k") (ttsBody "hello" "English")
    (okJson (envelope (.obj [("inlineData",
        .obj [("data", .str "QUJD"), ("mimeType", .str "text/plain")])])))
    (envelope (.obj [("inlineData",
        .obj [("data", .str "QUJD"), ("mimeType", .str "text/plain")])]))
    (by decide) (by decide) (by decide) rfl
    (fun m hm => by
      have h : m = "text/plain" := by
        have h' : JSVal.str "text/plain" = JSVal.str m := hm
        injection h' with h''
        exact h''.symm
      subst h
      decide)

end Server
